import Mathlib

/-!
Shallow embedding of `src/roadporrada.cpp` (the application bootstrap of the
RoadPorrada repository) and proofs of its lifecycle, ordering and constant
properties.

The program is a single `main` function that initializes GLFW, creates one
window, binds its native handle into bgfx platform data, initializes bgfx,
configures the clear state and viewport of view 0, runs a frame loop until the
window's close-requested flag is set, and then tears everything down.

The embedding models every external call as an emitted `Event` in a trace, and
the nondeterministic outside world (whether each initialization succeeds,
which keys the OS reports pressed, whether the OS requests a window close
during event polling) as an `Env` oracle.  `runMain` is the translation of
`main`: given an environment and a fuel bound on loop iterations, it returns
`none` when the loop would still be running after `fuel` iterations, and
otherwise the process exit status together with the full trace of external
calls, in program order.
-/

namespace Roadporrada

/-- GLFW's key code for the Escape key (`GLFW_KEY_ESCAPE`). -/
def GLFW_KEY_ESCAPE : Nat := 256

/-- GLFW's "key is pressed" state (`GLFW_PRESS`). -/
def GLFW_PRESS : Nat := 1

/-- GLFW window hint id `GLFW_CLIENT_API`. -/
def GLFW_CLIENT_API : Nat := 0x00022001

/-- GLFW window hint value `GLFW_NO_API`. -/
def GLFW_NO_API : Nat := 0

/-- bgfx clear-flag bit `BGFX_CLEAR_COLOR`. -/
def BGFX_CLEAR_COLOR : Nat := 0x0001

/-- bgfx clear-flag bit `BGFX_CLEAR_DEPTH`. -/
def BGFX_CLEAR_DEPTH : Nat := 0x0002

/-- One external call made by `main`, recorded with its arguments.  Floating
point arguments (the depth clear value `1.0f` of `bgfx::setViewClear`) are not
recorded; all integral and string arguments are. -/
inductive Event where
  | glfwInitEv (ok : Bool)
  | windowHintEv (hint value : Nat)
  | createWindowEv (width height : Nat) (title : String) (ok : Bool)
  | getWin32WindowEv
  | setPlatformDataEv
  | bgfxInitEv (width height : Nat) (ok : Bool)
  | setViewClearEv (viewId flags rgba stencil : Nat)
  | setViewRectEv (viewId x y width height : Nat)
  | stdoutEv (msg : String)
  | stderrEv (msg : String)
  | pollEventsEv
  | touchEv (viewId : Nat)
  | frameEv
  | getKeyEv (key : Nat)
  | setWindowShouldCloseEv (value : Nat)
  | bgfxShutdownEv
  | destroyWindowEv
  | glfwTerminateEv
  deriving DecidableEq, Repr

/-- The outside world as seen by `main`: whether each of the three
initialization calls succeeds, whether the OS delivers a window-close request
during the `glfwPollEvents` call of iteration `n`, and the state
(`GLFW_PRESS` = 1 or `GLFW_RELEASE` = 0) GLFW reports for key `k` during
iteration `n`. -/
structure Env where
  glfwInitOk : Bool
  createWindowOk : Bool
  bgfxInitOk : Bool
  osClose : Nat → Bool
  keyState : Nat → Nat → Nat

/-- One iteration of the frame loop body (source lines 52-63), entered with
the close-requested flag unset: poll events (which lets the OS set the
close-requested flag), touch view 0, present the frame, then query the Escape
key and set the close-requested flag if it is pressed.  Returns the
close-requested flag after the iteration and the events the iteration
emitted, in order. -/
def loopBody (env : Env) (n : Nat) : Bool × List Event :=
  let evs := [Event.pollEventsEv, Event.touchEv 0, Event.frameEv,
              Event.getKeyEv GLFW_KEY_ESCAPE]
  if env.keyState n GLFW_KEY_ESCAPE == GLFW_PRESS then
    (true, evs ++ [Event.setWindowShouldCloseEv 1])
  else
    (env.osClose n, evs)

/-- The frame loop `while (!glfwWindowShouldClose(window)) { ... }`, with a
fuel bound on the number of iterations.  `n` is the index of the next
iteration and `sc` the window's close-requested flag.  Returns `none` if the
flag is still unset after `fuel` further iterations, otherwise the
concatenated trace of the remaining iterations. -/
def frameLoop (env : Env) : Nat → Nat → Bool → Option (List Event)
  | 0, _, sc => if sc then some [] else none
  | fuel + 1, n, sc =>
    if sc then some []
    else
      let r := loopBody env n
      (frameLoop env fuel (n + 1) r.1).map (fun rest => r.2 ++ rest)

/-- The straight-line trace of the fully successful initialization prefix of
`main` (source lines 11-50): GLFW init, window hint, window creation, native
handle fetch and platform-data bind, bgfx init, clear and viewport setup for
view 0, and the two console prompts. -/
def preTrace : List Event :=
  [Event.glfwInitEv true,
   Event.windowHintEv GLFW_CLIENT_API GLFW_NO_API,
   Event.createWindowEv 800 600 "RoadPorrada" true,
   Event.getWin32WindowEv,
   Event.setPlatformDataEv,
   Event.bgfxInitEv 800 600 true,
   Event.setViewClearEv 0 (BGFX_CLEAR_COLOR ||| BGFX_CLEAR_DEPTH) 0x303030ff 0,
   Event.setViewRectEv 0 0 0 800 600,
   Event.stdoutEv "GLFW and bgfx initialized successfully!",
   Event.stdoutEv "Press any key in the console to exit..."]

/-- The teardown trace of the normal-close path of `main`
(source lines 65-67). -/
def teardownTrace : List Event :=
  [Event.bgfxShutdownEv, Event.destroyWindowEv, Event.glfwTerminateEv]

/-- The trace of the `glfwInit` failure path (source lines 11-15). -/
def glfwFailTrace : List Event :=
  [Event.glfwInitEv false,
   Event.stderrEv "Failed to initialize GLFW"]

/-- The trace of the `glfwCreateWindow` failure path
(source lines 17-24). -/
def windowFailTrace : List Event :=
  [Event.glfwInitEv true,
   Event.windowHintEv GLFW_CLIENT_API GLFW_NO_API,
   Event.createWindowEv 800 600 "RoadPorrada" false,
   Event.stderrEv "Failed to create GLFW window",
   Event.glfwTerminateEv]

/-- The trace of the `bgfx::init` failure path (source lines 17-44). -/
def bgfxFailTrace : List Event :=
  [Event.glfwInitEv true,
   Event.windowHintEv GLFW_CLIENT_API GLFW_NO_API,
   Event.createWindowEv 800 600 "RoadPorrada" true,
   Event.getWin32WindowEv,
   Event.setPlatformDataEv,
   Event.bgfxInitEv 800 600 false,
   Event.stderrEv "Failed to initialize bgfx",
   Event.destroyWindowEv,
   Event.glfwTerminateEv]

/-- The whole of `main` (source lines 9-70).  `main` takes no command-line
arguments, so the only inputs are the environment oracle and the loop fuel.
Returns the exit status and the trace of external calls in program order,
or `none` when the frame loop is still running after `fuel` iterations. -/
def runMain (env : Env) (fuel : Nat) : Option (Int × List Event) :=
  if !env.glfwInitOk then
    some (1, glfwFailTrace)
  else if !env.createWindowOk then
    some (1, windowFailTrace)
  else if !env.bgfxInitOk then
    some (1, bgfxFailTrace)
  else
    (frameLoop env fuel 0 false).map
      (fun loopEvs => (0, preTrace ++ loopEvs ++ teardownTrace))

/-- Events that release one of the three acquired resources. -/
def isReleaseEv : Event → Bool
  | Event.bgfxShutdownEv => true
  | Event.destroyWindowEv => true
  | Event.glfwTerminateEv => true
  | _ => false

/-- Events that modify the clear/viewport configuration of a view. -/
def isClearConfigEv : Event → Bool
  | Event.setViewClearEv _ _ _ _ => true
  | Event.setViewRectEv _ _ _ _ _ => true
  | _ => false

/-- The five event shapes a frame-loop iteration can emit. -/
def isLoopEv : Event → Bool
  | Event.pollEventsEv => true
  | Event.touchEv _ => true
  | Event.frameEv => true
  | Event.getKeyEv _ => true
  | Event.setWindowShouldCloseEv _ => true
  | _ => false

/-- The exact event list one frame-loop iteration emits. -/
def iterEvents (env : Env) (n : Nat) : List Event :=
  [Event.pollEventsEv, Event.touchEv 0, Event.frameEv,
   Event.getKeyEv GLFW_KEY_ESCAPE] ++
    (if env.keyState n GLFW_KEY_ESCAPE == GLFW_PRESS then
      [Event.setWindowShouldCloseEv 1]
     else [])

/-- The window's close-requested flag after iteration `n` of the loop, when
it was unset at the start of the iteration: set by the OS during polling or
by the Escape-key check. -/
def closeAfter (env : Env) (n : Nat) : Bool :=
  env.osClose n || (env.keyState n GLFW_KEY_ESCAPE == GLFW_PRESS)

theorem loopBody_eq (env : Env) (n : Nat) :
    loopBody env n = (closeAfter env n, iterEvents env n) := by
  unfold loopBody closeAfter iterEvents
  cases h : env.keyState n GLFW_KEY_ESCAPE == GLFW_PRESS <;> simp [h]

theorem frameLoop_closed (env : Env) (fuel n : Nat) :
    frameLoop env fuel n true = some [] := by
  cases fuel <;> simp [frameLoop]

/-- Every event a (terminating) run of the frame loop emits is one of the
five loop-body event shapes. -/
theorem frameLoop_all_loopEv (env : Env) :
    ∀ fuel n evs, frameLoop env fuel n false = some evs →
      ∀ e ∈ evs, isLoopEv e = true := by
  intro fuel
  induction fuel with
  | zero => intro n evs h; simp [frameLoop] at h
  | succ fuel ih =>
    intro n evs h
    rw [frameLoop] at h
    simp only [if_neg (by simp : ¬ (false = true)), loopBody_eq,
      Option.map_eq_some'] at h
    obtain ⟨rest, hrest, hevs⟩ := h
    intro e he
    rw [← hevs] at he
    simp only [List.mem_append] at he
    rcases he with he | he
    · unfold iterEvents at he
      rcases (by cases h2 : env.keyState n GLFW_KEY_ESCAPE == GLFW_PRESS <;>
        simp [h2] at he <;> tauto :
        e = Event.pollEventsEv ∨ e = Event.touchEv 0 ∨ e = Event.frameEv ∨
        e = Event.getKeyEv GLFW_KEY_ESCAPE ∨
        e = Event.setWindowShouldCloseEv 1) with
        h | h | h | h | h <;> subst h <;> rfl
    · cases hc : closeAfter env n with
      | false =>
        rw [hc] at hrest
        exact ih (n + 1) rest hrest e he
      | true =>
        rw [hc, frameLoop_closed] at hrest
        obtain rfl : rest = [] := by simpa using hrest.symm
        simp at he

/-- Structure of every terminating run of the frame loop entered with the
close-requested flag unset: there is a first iteration `n + k` after whose
body the flag is set; the loop runs exactly the iterations `n`, …, `n + k`
and its trace is their per-iteration traces in order. -/
theorem frameLoop_structure (env : Env) :
    ∀ fuel n evs, frameLoop env fuel n false = some evs →
      ∃ k, k < fuel ∧ (∀ i, i < k → closeAfter env (n + i) = false) ∧
        closeAfter env (n + k) = true ∧
        evs = (List.range (k + 1)).flatMap (fun i => iterEvents env (n + i)) := by
  have hshift : ∀ (f : Nat → List Event) (m : Nat),
      (List.range (m + 1)).flatMap f =
        f 0 ++ (List.range m).flatMap (fun i => f (i + 1)) := by
    intro f m
    rw [List.range_succ_eq_map]
    simp [List.flatMap_map, Nat.succ_eq_add_one]
  intro fuel
  induction fuel with
  | zero => intro n evs h; simp [frameLoop] at h
  | succ fuel ih =>
    intro n evs h
    rw [frameLoop] at h
    simp only [if_neg (by simp : ¬ (false = true)), loopBody_eq,
      Option.map_eq_some'] at h
    obtain ⟨rest, hrest, hevs⟩ := h
    cases hc : closeAfter env n with
    | true =>
      rw [hc, frameLoop_closed] at hrest
      obtain rfl : rest = [] := by simpa using hrest.symm
      refine ⟨0, Nat.succ_pos fuel, by omega, by simpa using hc, ?_⟩
      rw [← hevs, hshift (fun i => iterEvents env (n + i)) 0]
      simp
    | false =>
      rw [hc] at hrest
      obtain ⟨k, hk, hbefore, hclose, hrest'⟩ := ih (n + 1) rest hrest
      refine ⟨k + 1, by omega, ?_, ?_, ?_⟩
      · intro i hi
        cases i with
        | zero => simpa using hc
        | succ j =>
          have := hbefore j (by omega)
          rw [show n + (j + 1) = n + 1 + j by omega]
          exact this
      · rw [show n + (k + 1) = n + 1 + k by omega]; exact hclose
      · rw [← hevs, hrest',
          hshift (fun i => iterEvents env (n + i)) (k + 1)]
        simp only [Nat.add_zero]
        have harg : (fun i => iterEvents env (n + 1 + i)) =
            (fun i => iterEvents env (n + (i + 1))) :=
          funext (fun i => by rw [show n + 1 + i = n + (i + 1) by omega])
        rw [harg]

/-- A loop-shaped event is never a resource release. -/
theorem loopEv_not_release (e : Event) (h : isLoopEv e = true) :
    isReleaseEv e = false := by
  cases e <;> first | rfl | exact absurd h (by simp [isLoopEv])

/-- A loop-shaped event never changes the clear/viewport configuration. -/
theorem loopEv_not_clearConfig (e : Event) (h : isLoopEv e = true) :
    isClearConfigEv e = false := by
  cases e <;> first | rfl | exact absurd h (by simp [isLoopEv])

/-- A terminating frame-loop trace contains no release events. -/
theorem frameLoop_filter_release (env : Env) (fuel n : Nat) (evs : List Event)
    (h : frameLoop env fuel n false = some evs) :
    evs.filter isReleaseEv = [] := by
  rw [List.filter_eq_nil_iff]
  intro e he
  have := loopEv_not_release e (frameLoop_all_loopEv env fuel n evs h e he)
  simp [this]

/-- A terminating frame-loop trace contains no clear/viewport
configuration events. -/
theorem frameLoop_filter_clearConfig (env : Env) (fuel n : Nat)
    (evs : List Event) (h : frameLoop env fuel n false = some evs) :
    evs.filter isClearConfigEv = [] := by
  rw [List.filter_eq_nil_iff]
  intro e he
  have := loopEv_not_clearConfig e (frameLoop_all_loopEv env fuel n evs h e he)
  simp [this]

/-- Exhaustive case analysis of a terminating run of `main`: the three
failure paths with their fixed traces and exit status 1, or the normal-close
path with exit status 0 and a trace assembled from the initialization prefix,
a terminating frame-loop trace, and the teardown suffix. -/
theorem runMain_eq_cases (env : Env) (fuel : Nat) (code : Int)
    (tr : List Event) (h : runMain env fuel = some (code, tr)) :
    (env.glfwInitOk = false ∧ code = 1 ∧ tr = glfwFailTrace) ∨
    (env.glfwInitOk = true ∧ env.createWindowOk = false ∧ code = 1 ∧
      tr = windowFailTrace) ∨
    (env.glfwInitOk = true ∧ env.createWindowOk = true ∧
      env.bgfxInitOk = false ∧ code = 1 ∧ tr = bgfxFailTrace) ∨
    (env.glfwInitOk = true ∧ env.createWindowOk = true ∧
      env.bgfxInitOk = true ∧ code = 0 ∧
      ∃ evs, frameLoop env fuel 0 false = some evs ∧
        tr = preTrace ++ evs ++ teardownTrace) := by
  unfold runMain at h
  cases hg : env.glfwInitOk with
  | false =>
    rw [hg] at h
    simp only [Bool.not_false, if_true, Option.some.injEq, Prod.mk.injEq] at h
    exact Or.inl ⟨rfl, h.1.symm, h.2.symm⟩
  | true =>
    rw [hg] at h
    simp only [Bool.not_true, Bool.false_eq_true, if_false] at h
    cases hw : env.createWindowOk with
    | false =>
      rw [hw] at h
      simp only [Bool.not_false, if_true, Option.some.injEq,
        Prod.mk.injEq] at h
      exact Or.inr (Or.inl ⟨rfl, rfl, h.1.symm, h.2.symm⟩)
    | true =>
      rw [hw] at h
      simp only [Bool.not_true, Bool.false_eq_true, if_false] at h
      cases hb : env.bgfxInitOk with
      | false =>
        rw [hb] at h
        simp only [Bool.not_false, if_true, Option.some.injEq,
          Prod.mk.injEq] at h
        exact Or.inr (Or.inr (Or.inl ⟨rfl, rfl, rfl, h.1.symm, h.2.symm⟩))
      | true =>
        rw [hb] at h
        simp only [Bool.not_true, Bool.false_eq_true, if_false,
          Option.map_eq_some'] at h
        obtain ⟨evs, hloop, heq⟩ := h
        obtain ⟨hcode, htr⟩ := Prod.mk.injEq .. ▸ heq
        exact Or.inr (Or.inr (Or.inr
          ⟨rfl, rfl, rfl, hcode.symm, evs, hloop, htr.symm⟩))

/-- Witness environment: every initialization succeeds and the OS requests a
window close during the first `glfwPollEvents` call. -/
def envAllOk : Env where
  glfwInitOk := true
  createWindowOk := true
  bgfxInitOk := true
  osClose := fun _ => true
  keyState := fun _ _ => 0

/-- Witness environment: `glfwInit` fails. -/
def envGlfwFail : Env where
  glfwInitOk := false
  createWindowOk := true
  bgfxInitOk := true
  osClose := fun _ => false
  keyState := fun _ _ => 0

/-- Witness environment: `glfwCreateWindow` fails. -/
def envWindowFail : Env where
  glfwInitOk := true
  createWindowOk := false
  bgfxInitOk := true
  osClose := fun _ => false
  keyState := fun _ _ => 0

/-- Witness environment: `bgfx::init` fails. -/
def envBgfxFail : Env where
  glfwInitOk := true
  createWindowOk := true
  bgfxInitOk := false
  osClose := fun _ => false
  keyState := fun _ _ => 0

/-- C1: on every exit path of `main` (windowing-init failure, window-creation
failure, graphics-init failure, normal close) the release events of the trace
are exactly one release of each resource acquired before the failure point,
in strict reverse-acquisition order (bgfx shutdown, then window destruction,
then GLFW termination), and a resource that was never acquired is never
released. -/
theorem releases_reverse_acquisition_order (env : Env) (fuel : Nat)
    (code : Int) (tr : List Event) (h : runMain env fuel = some (code, tr)) :
    tr.filter isReleaseEv =
      if env.glfwInitOk then
        if env.createWindowOk then
          if env.bgfxInitOk then
            [Event.bgfxShutdownEv, Event.destroyWindowEv,
             Event.glfwTerminateEv]
          else
            [Event.destroyWindowEv, Event.glfwTerminateEv]
        else
          [Event.glfwTerminateEv]
      else [] := by
  rcases runMain_eq_cases env fuel code tr h with
    ⟨hg, _, rfl⟩ | ⟨hg, hw, _, rfl⟩ | ⟨hg, hw, hb, _, rfl⟩ |
    ⟨hg, hw, hb, _, evs, hloop, rfl⟩
  · rw [hg]; rfl
  · rw [hg, hw]; rfl
  · rw [hg, hw, hb]; rfl
  · rw [hg, hw, hb]
    simp only [if_true]
    rw [List.filter_append, List.filter_append,
      frameLoop_filter_release env fuel 0 evs hloop]
    rfl

/-- Witness for C1 at a concrete run: all three initializations succeed and
the OS closes the window on the first iteration. -/
theorem releases_reverse_acquisition_order_witness :
    (preTrace ++
      [Event.pollEventsEv, Event.touchEv 0, Event.frameEv,
       Event.getKeyEv GLFW_KEY_ESCAPE] ++ teardownTrace).filter isReleaseEv =
      if envAllOk.glfwInitOk then
        if envAllOk.createWindowOk then
          if envAllOk.bgfxInitOk then
            [Event.bgfxShutdownEv, Event.destroyWindowEv,
             Event.glfwTerminateEv]
          else
            [Event.destroyWindowEv, Event.glfwTerminateEv]
        else
          [Event.glfwTerminateEv]
      else [] :=
  releases_reverse_acquisition_order envAllOk 2 0 _ rfl

/-- C9: `main` takes no inputs beyond the outside world (no command-line
arguments are read), and every terminating run exits with status 0 or
status 1; the status is 0 exactly when all three initializations succeeded
(normal close), and 1 exactly on an initialization failure. -/
theorem exit_status_zero_or_one (env : Env) (fuel : Nat) (code : Int)
    (tr : List Event) (h : runMain env fuel = some (code, tr)) :
    (code = 0 ∨ code = 1) ∧
    (code = 0 ↔ env.glfwInitOk = true ∧ env.createWindowOk = true ∧
      env.bgfxInitOk = true) := by
  rcases runMain_eq_cases env fuel code tr h with
    ⟨hg, rfl, _⟩ | ⟨hg, hw, rfl, _⟩ | ⟨hg, hw, hb, rfl, _⟩ |
    ⟨hg, hw, hb, rfl, _⟩
  · exact ⟨Or.inr rfl, by simp [hg]⟩
  · exact ⟨Or.inr rfl, by simp [hg, hw]⟩
  · exact ⟨Or.inr rfl, by simp [hg, hw, hb]⟩
  · exact ⟨Or.inl rfl, by simp [hg, hw, hb]⟩

/-- Witness for C9 at a concrete failing run: `glfwInit` fails and the exit
status is 1. -/
theorem exit_status_zero_or_one_witness :
    ((1 : Int) = 0 ∨ (1 : Int) = 1) ∧
    ((1 : Int) = 0 ↔ envGlfwFail.glfwInitOk = true ∧
      envGlfwFail.createWindowOk = true ∧ envGlfwFail.bgfxInitOk = true) :=
  exit_status_zero_or_one envGlfwFail 0 1 glfwFailTrace rfl

/-- C2: every terminating run of the frame loop entered with the
close-requested flag unset consists of whole iterations, each emitting
exactly, in order: an event poll, a touch of render target 0, a frame
submit/present, and an Escape-key query followed by a close request exactly
when Escape is pressed; the loop runs through the first iteration after
which the close-requested flag is set, and on the normal path teardown
follows the loop trace. -/
theorem frame_loop_iteration_structure (env : Env) (fuel : Nat)
    (evs : List Event) (h : frameLoop env fuel 0 false = some evs) :
    (∃ k, k < fuel ∧ (∀ i, i < k → closeAfter env i = false) ∧
      closeAfter env k = true ∧
      evs = (List.range (k + 1)).flatMap (fun i => iterEvents env i)) ∧
    (env.glfwInitOk = true → env.createWindowOk = true →
      env.bgfxInitOk = true →
      runMain env fuel = some (0, preTrace ++ evs ++ teardownTrace)) := by
  constructor
  · obtain ⟨k, hk, hbefore, hclose, he⟩ := frameLoop_structure env fuel 0 evs h
    refine ⟨k, hk, fun i hi => by simpa using hbefore i hi,
      by simpa using hclose, ?_⟩
    simpa using he
  · intro hg hw hb
    simp [runMain, hg, hw, hb, h]

/-- Witness for C2: with every initialization succeeding and the OS closing
the window during the first poll, the loop runs exactly one iteration. -/
theorem frame_loop_iteration_structure_witness :
    (∃ k, k < 2 ∧ (∀ i, i < k → closeAfter envAllOk i = false) ∧
      closeAfter envAllOk k = true ∧
      [Event.pollEventsEv, Event.touchEv 0, Event.frameEv,
       Event.getKeyEv GLFW_KEY_ESCAPE] =
        (List.range (k + 1)).flatMap (fun i => iterEvents envAllOk i)) ∧
    (envAllOk.glfwInitOk = true → envAllOk.createWindowOk = true →
      envAllOk.bgfxInitOk = true →
      runMain envAllOk 2 = some (0, preTrace ++
        [Event.pollEventsEv, Event.touchEv 0, Event.frameEv,
         Event.getKeyEv GLFW_KEY_ESCAPE] ++ teardownTrace)) :=
  frame_loop_iteration_structure envAllOk 2 _ rfl

/-- C5: if `glfwInit` fails, `main` writes the fixed error message to the
error stream and exits with status 1; its trace contains no window-creation
and no graphics-initialization call. -/
theorem glfw_init_failure_path (env : Env) (fuel : Nat)
    (hg : env.glfwInitOk = false) :
    runMain env fuel = some (1, glfwFailTrace) ∧
    Event.stderrEv "Failed to initialize GLFW" ∈ glfwFailTrace ∧
    (∀ w h t ok, Event.createWindowEv w h t ok ∉ glfwFailTrace) ∧
    (∀ w h ok, Event.bgfxInitEv w h ok ∉ glfwFailTrace) := by
  refine ⟨by simp [runMain, hg], by simp [glfwFailTrace], ?_, ?_⟩
  · intro w h t ok
    simp [glfwFailTrace]
  · intro w h ok
    simp [glfwFailTrace]

/-- Witness for C5 at the concrete environment where `glfwInit` fails. -/
theorem glfw_init_failure_path_witness :
    runMain envGlfwFail 0 = some (1, glfwFailTrace) ∧
    Event.stderrEv "Failed to initialize GLFW" ∈ glfwFailTrace ∧
    (∀ w h t ok, Event.createWindowEv w h t ok ∉ glfwFailTrace) ∧
    (∀ w h ok, Event.bgfxInitEv w h ok ∉ glfwFailTrace) :=
  glfw_init_failure_path envGlfwFail 0 rfl

/-- C4: if `bgfx::init` fails, `main` writes the fixed error message to the
error stream, then destroys the window, then terminates GLFW, in that order,
and exits with status 1; no frame-loop iteration runs (no poll event is in
the trace). -/
theorem bgfx_init_failure_path (env : Env) (fuel : Nat)
    (hg : env.glfwInitOk = true) (hw : env.createWindowOk = true)
    (hb : env.bgfxInitOk = false) :
    runMain env fuel = some (1, bgfxFailTrace) ∧
    Event.pollEventsEv ∉ bgfxFailTrace ∧
    ∃ l1, bgfxFailTrace =
      l1 ++ [Event.stderrEv "Failed to initialize bgfx",
             Event.destroyWindowEv, Event.glfwTerminateEv] := by
  refine ⟨by simp [runMain, hg, hw, hb], by simp [bgfxFailTrace], ?_⟩
  exact ⟨[Event.glfwInitEv true,
          Event.windowHintEv GLFW_CLIENT_API GLFW_NO_API,
          Event.createWindowEv 800 600 "RoadPorrada" true,
          Event.getWin32WindowEv,
          Event.setPlatformDataEv,
          Event.bgfxInitEv 800 600 false], rfl⟩

/-- Witness for C4 at the concrete environment where `bgfx::init` fails. -/
theorem bgfx_init_failure_path_witness :
    runMain envBgfxFail 0 = some (1, bgfxFailTrace) ∧
    Event.pollEventsEv ∉ bgfxFailTrace ∧
    ∃ l1, bgfxFailTrace =
      l1 ++ [Event.stderrEv "Failed to initialize bgfx",
             Event.destroyWindowEv, Event.glfwTerminateEv] :=
  bgfx_init_failure_path envBgfxFail 0 rfl rfl rfl

/-- The trace of one frame-loop iteration contains exactly one event
poll. -/
theorem iterEvents_count_poll (env : Env) (n : Nat) :
    (iterEvents env n).count Event.pollEventsEv = 1 := by
  unfold iterEvents
  cases h : env.keyState n GLFW_KEY_ESCAPE == GLFW_PRESS <;> simp [h]

/-- If Escape is reported pressed during iteration `start + n`, the frame
loop entered at iteration `start` with the flag unset terminates after at
most `n + 1` iterations, given fuel for them. -/
theorem frameLoop_escape_terminates (env : Env) :
    ∀ n fuel start,
      env.keyState (start + n) GLFW_KEY_ESCAPE = GLFW_PRESS →
      n + 1 ≤ fuel →
      ∃ evs, frameLoop env fuel start false = some evs ∧
        evs.count Event.pollEventsEv ≤ n + 1 := by
  intro n
  induction n with
  | zero =>
    intro fuel start hesc hf
    match fuel, hf with
    | fuel + 1, _ =>
      rw [frameLoop]
      simp only [if_neg (by simp : ¬ (false = true)), loopBody_eq]
      have hclose : closeAfter env start = true := by
        unfold closeAfter
        rw [show start = start + 0 from rfl, hesc]
        simp
      rw [hclose, frameLoop_closed]
      exact ⟨iterEvents env start ++ [], rfl, by
        simpa using Nat.le_of_eq (iterEvents_count_poll env start)⟩
  | succ m ih =>
    intro fuel start hesc hf
    match fuel, hf with
    | fuel + 1, _ =>
      rw [frameLoop]
      simp only [if_neg (by simp : ¬ (false = true)), loopBody_eq]
      cases hc : closeAfter env start with
      | true =>
        rw [frameLoop_closed]
        refine ⟨iterEvents env start ++ [], rfl, ?_⟩
        simp only [List.append_nil, iterEvents_count_poll]
        omega
      | false =>
        obtain ⟨evs, hrec, hcount⟩ := ih fuel (start + 1)
          (by rw [show start + 1 + m = start + (m + 1) by omega]; exact hesc)
          (by omega)
        rw [hrec]
        refine ⟨iterEvents env start ++ evs, rfl, ?_⟩
        rw [List.count_append, iterEvents_count_poll]
        omega

/-- C6: if Escape is pressed during iteration `n` of the frame loop, the
loop terminates within that iteration (at most `n + 1` iterations, hence at
most `n + 1` event polls, ever run), and the teardown sequence — bgfx
shutdown, window destruction, GLFW termination — runs before the process
exits. -/
theorem escape_terminates_within_one_iteration (env : Env) (n fuel : Nat)
    (hg : env.glfwInitOk = true) (hw : env.createWindowOk = true)
    (hb : env.bgfxInitOk = true)
    (hesc : env.keyState n GLFW_KEY_ESCAPE = GLFW_PRESS)
    (hfuel : n + 1 ≤ fuel) :
    ∃ tr, runMain env fuel = some (0, tr) ∧
      tr.count Event.pollEventsEv ≤ n + 1 ∧
      ∃ p, tr = p ++ teardownTrace := by
  obtain ⟨evs, hloop, hcount⟩ :=
    frameLoop_escape_terminates env n fuel 0 (by simpa using hesc) hfuel
  refine ⟨preTrace ++ evs ++ teardownTrace,
    by simp [runMain, hg, hw, hb, hloop], ?_, preTrace ++ evs, by simp⟩
  rw [List.count_append, List.count_append]
  have h1 : preTrace.count Event.pollEventsEv = 0 := by decide
  have h2 : teardownTrace.count Event.pollEventsEv = 0 := by decide
  omega

/-- C6 witness environment: all initializations succeed, the OS never
requests a close, and Escape is pressed from the first iteration on. -/
def envEscape : Env where
  glfwInitOk := true
  createWindowOk := true
  bgfxInitOk := true
  osClose := fun _ => false
  keyState := fun _ k => if k == GLFW_KEY_ESCAPE then GLFW_PRESS else 0

/-- Witness for C6 at the concrete environment where Escape is pressed on
the very first iteration. -/
theorem escape_terminates_within_one_iteration_witness :
    ∃ tr, runMain envEscape 1 = some (0, tr) ∧
      tr.count Event.pollEventsEv ≤ 0 + 1 ∧
      ∃ p, tr = p ++ teardownTrace :=
  escape_terminates_within_one_iteration envEscape 0 1 rfl rfl rfl
    (by decide) (by decide)

/-- C3: on every execution path, every `bgfx::init` call occurs after the
window's native Win32 handle has been obtained and bound into the platform
data (no such call precedes the handle bind), and if bgfx is shut down then
the window destruction comes strictly after the shutdown (never before). -/
theorem context_lifetime_ordering (env : Env) (fuel : Nat) (code : Int)
    (tr : List Event) (h : runMain env fuel = some (code, tr)) :
    (∀ ok, Event.bgfxInitEv 800 600 ok ∈ tr →
      ∃ l1 l2, tr = l1 ++ [Event.getWin32WindowEv,
        Event.setPlatformDataEv] ++ l2 ∧
        (∀ w hh b, Event.bgfxInitEv w hh b ∉ l1)) ∧
    (Event.bgfxShutdownEv ∈ tr →
      ∃ l1 l2, tr = l1 ++ Event.bgfxShutdownEv :: l2 ∧
        Event.destroyWindowEv ∉ l1 ∧ Event.destroyWindowEv ∈ l2) := by
  rcases runMain_eq_cases env fuel code tr h with
    ⟨_, _, rfl⟩ | ⟨_, _, _, rfl⟩ | ⟨_, _, _, _, rfl⟩ |
    ⟨_, _, _, _, evs, hloop, rfl⟩
  · constructor
    · intro ok hmem
      simp [glfwFailTrace] at hmem
    · intro hmem
      simp [glfwFailTrace] at hmem
  · constructor
    · intro ok hmem
      simp [windowFailTrace] at hmem
    · intro hmem
      simp [windowFailTrace] at hmem
  · constructor
    · intro ok hmem
      refine ⟨[Event.glfwInitEv true,
               Event.windowHintEv GLFW_CLIENT_API GLFW_NO_API,
               Event.createWindowEv 800 600 "RoadPorrada" true],
              [Event.bgfxInitEv 800 600 false,
               Event.stderrEv "Failed to initialize bgfx",
               Event.destroyWindowEv, Event.glfwTerminateEv], rfl, ?_⟩
      intro w hh b
      simp
    · intro hmem
      simp [bgfxFailTrace] at hmem
  · have hnoloop : ∀ e, e ∈ evs → isLoopEv e = true :=
      frameLoop_all_loopEv env fuel 0 evs hloop
    constructor
    · intro ok hmem
      refine ⟨[Event.glfwInitEv true,
               Event.windowHintEv GLFW_CLIENT_API GLFW_NO_API,
               Event.createWindowEv 800 600 "RoadPorrada" true],
              [Event.bgfxInitEv 800 600 true,
               Event.setViewClearEv 0
                 (BGFX_CLEAR_COLOR ||| BGFX_CLEAR_DEPTH) 0x303030ff 0,
               Event.setViewRectEv 0 0 0 800 600,
               Event.stdoutEv "GLFW and bgfx initialized successfully!",
               Event.stdoutEv "Press any key in the console to exit..."] ++
                evs ++ teardownTrace, ?_, ?_⟩
      · simp [preTrace, teardownTrace]
      · intro w hh b
        simp
    · intro hmem
      refine ⟨preTrace ++ evs, [Event.destroyWindowEv,
        Event.glfwTerminateEv], by simp [teardownTrace], ?_, by simp⟩
      intro hdes
      rw [List.mem_append] at hdes
      rcases hdes with hdes | hdes
      · simp [preTrace] at hdes
      · have := hnoloop _ hdes
        simp [isLoopEv] at this

/-- Witness for C3 at the concrete all-succeeding environment. -/
theorem context_lifetime_ordering_witness :
    (∀ ok, Event.bgfxInitEv 800 600 ok ∈
        preTrace ++ [Event.pollEventsEv, Event.touchEv 0, Event.frameEv,
          Event.getKeyEv GLFW_KEY_ESCAPE] ++ teardownTrace →
      ∃ l1 l2, preTrace ++ [Event.pollEventsEv, Event.touchEv 0,
          Event.frameEv, Event.getKeyEv GLFW_KEY_ESCAPE] ++ teardownTrace =
        l1 ++ [Event.getWin32WindowEv, Event.setPlatformDataEv] ++ l2 ∧
        (∀ w hh b, Event.bgfxInitEv w hh b ∉ l1)) ∧
    (Event.bgfxShutdownEv ∈
        preTrace ++ [Event.pollEventsEv, Event.touchEv 0, Event.frameEv,
          Event.getKeyEv GLFW_KEY_ESCAPE] ++ teardownTrace →
      ∃ l1 l2, preTrace ++ [Event.pollEventsEv, Event.touchEv 0,
          Event.frameEv, Event.getKeyEv GLFW_KEY_ESCAPE] ++ teardownTrace =
        l1 ++ Event.bgfxShutdownEv :: l2 ∧
        Event.destroyWindowEv ∉ l1 ∧ Event.destroyWindowEv ∈ l2) :=
  context_lifetime_ordering envAllOk 2 0 _ rfl

/-- The clear/viewport configuration of the sole render target (view 0) as
held by the graphics backend: clear flags, packed RGBA clear color, and
viewport rectangle. -/
structure ViewConfig where
  clearFlags : Nat
  clearRgba : Nat
  rect : Nat × Nat × Nat × Nat
  deriving DecidableEq, Repr

/-- How each external call updates the view configuration: only
`bgfx::setViewClear` and `bgfx::setViewRect` change it. -/
def applyEvent (c : ViewConfig) : Event → ViewConfig
  | Event.setViewClearEv _ flags rgba _ =>
    { c with clearFlags := flags, clearRgba := rgba }
  | Event.setViewRectEv _ x y w h => { c with rect := (x, y, w, h) }
  | _ => c

/-- The view configuration in force at each `bgfx::frame` call of a trace,
starting from configuration `c`. -/
def frameConfigs : ViewConfig → List Event → List ViewConfig
  | _, [] => []
  | c, e :: rest =>
    if e = Event.frameEv then
      applyEvent c e :: frameConfigs (applyEvent c e) rest
    else
      frameConfigs (applyEvent c e) rest

/-- The configuration the bootstrap installs before the loop: clear flags
`BGFX_CLEAR_COLOR | BGFX_CLEAR_DEPTH`, clear color `0x303030ff`, viewport
`(0, 0, 800, 600)`. -/
def fixedConfig : ViewConfig :=
  ⟨BGFX_CLEAR_COLOR ||| BGFX_CLEAR_DEPTH, 0x303030ff, (0, 0, 800, 600)⟩

/-- Loop-shaped events never change the view configuration. -/
theorem applyEvent_loopEv (c : ViewConfig) (e : Event)
    (h : isLoopEv e = true) : applyEvent c e = c := by
  cases e <;> first | rfl | exact absurd h (by simp [isLoopEv])

/-- `frameConfigs` distributes over trace concatenation. -/
theorem frameConfigs_append (a b : List Event) :
    ∀ c, frameConfigs c (a ++ b) =
      frameConfigs c a ++ frameConfigs (a.foldl applyEvent c) b := by
  induction a with
  | nil => intro c; rfl
  | cons e rest ih =>
    intro c
    rw [List.cons_append, frameConfigs, frameConfigs, List.foldl_cons]
    by_cases he : e = Event.frameEv
    · rw [if_pos he, if_pos he, ih, List.cons_append]
    · rw [if_neg he, if_neg he, ih]

/-- Over a trace of loop-shaped events the view configuration never moves:
the fold leaves it unchanged and every frame sees the same configuration. -/
theorem frameConfigs_loop (l : List Event)
    (hl : ∀ e ∈ l, isLoopEv e = true) (c : ViewConfig) :
    l.foldl applyEvent c = c ∧
      frameConfigs c l = List.replicate (l.count Event.frameEv) c := by
  induction l with
  | nil => exact ⟨rfl, rfl⟩
  | cons e rest ih =>
    have he : isLoopEv e = true := hl e (List.mem_cons_self e rest)
    have hrest : ∀ x ∈ rest, isLoopEv x = true :=
      fun x hx => hl x (List.mem_cons_of_mem e hx)
    obtain ⟨ihf, ihc⟩ := ih hrest
    rw [List.foldl_cons, applyEvent_loopEv c e he]
    refine ⟨ihf, ?_⟩
    rw [frameConfigs, applyEvent_loopEv c e he, List.count_cons]
    by_cases hfr : e = Event.frameEv
    · rw [if_pos hfr, ihc]
      simp [hfr]
      rw [List.replicate_succ]
    · rw [if_neg hfr, ihc]
      have : (e == Event.frameEv) = false := by
        simpa using hfr
      simp [this]

/-- C7: the clear/viewport configuration calls happen exactly once each,
before the loop (and only on the path where bgfx initialized), and every
single `bgfx::frame` call of every terminating run is presented with the
same fixed clear color, clear flags and viewport — no drift across
iterations, whatever configuration the backend started from. -/
theorem clear_config_constant_per_frame (env : Env) (fuel : Nat)
    (code : Int) (tr : List Event) (c0 : ViewConfig)
    (h : runMain env fuel = some (code, tr)) :
    tr.filter isClearConfigEv =
      (if env.glfwInitOk && env.createWindowOk && env.bgfxInitOk then
        [Event.setViewClearEv 0 (BGFX_CLEAR_COLOR ||| BGFX_CLEAR_DEPTH)
           0x303030ff 0,
         Event.setViewRectEv 0 0 0 800 600]
       else []) ∧
    frameConfigs c0 tr =
      List.replicate (tr.count Event.frameEv) fixedConfig := by
  rcases runMain_eq_cases env fuel code tr h with
    ⟨hg, _, rfl⟩ | ⟨hg, hw, _, rfl⟩ | ⟨hg, hw, hb, _, rfl⟩ |
    ⟨hg, hw, hb, _, evs, hloop, rfl⟩
  · rw [hg]
    exact ⟨rfl, rfl⟩
  · rw [hg, hw]
    exact ⟨rfl, rfl⟩
  · rw [hg, hw, hb]
    exact ⟨rfl, rfl⟩
  · rw [hg, hw, hb]
    have hnoloop : ∀ e ∈ evs, isLoopEv e = true :=
      frameLoop_all_loopEv env fuel 0 evs hloop
    obtain ⟨hfold, hconf⟩ := frameConfigs_loop evs hnoloop fixedConfig
    constructor
    · rw [List.filter_append, List.filter_append,
        frameLoop_filter_clearConfig env fuel 0 evs hloop]
      rfl
    · rw [frameConfigs_append, frameConfigs_append, List.foldl_append,
        show List.foldl applyEvent c0 preTrace = fixedConfig from rfl,
        hfold, hconf,
        show frameConfigs c0 preTrace = ([] : List ViewConfig) from rfl,
        show frameConfigs fixedConfig teardownTrace =
          ([] : List ViewConfig) from rfl,
        List.count_append, List.count_append]
      have h1 : preTrace.count Event.frameEv = 0 := by decide
      have h2 : teardownTrace.count Event.frameEv = 0 := by decide
      rw [h1, h2]
      simp

/-- Witness for C7 at the concrete all-succeeding environment: one loop
iteration, one frame, presented with the fixed configuration. -/
theorem clear_config_constant_per_frame_witness :
    (preTrace ++ [Event.pollEventsEv, Event.touchEv 0, Event.frameEv,
        Event.getKeyEv GLFW_KEY_ESCAPE] ++ teardownTrace).filter
          isClearConfigEv =
      (if envAllOk.glfwInitOk && envAllOk.createWindowOk &&
          envAllOk.bgfxInitOk then
        [Event.setViewClearEv 0 (BGFX_CLEAR_COLOR ||| BGFX_CLEAR_DEPTH)
           0x303030ff 0,
         Event.setViewRectEv 0 0 0 800 600]
       else []) ∧
    frameConfigs ⟨0, 0, (0, 0, 0, 0)⟩
        (preTrace ++ [Event.pollEventsEv, Event.touchEv 0, Event.frameEv,
          Event.getKeyEv GLFW_KEY_ESCAPE] ++ teardownTrace) =
      List.replicate ((preTrace ++ [Event.pollEventsEv, Event.touchEv 0,
        Event.frameEv, Event.getKeyEv GLFW_KEY_ESCAPE] ++
          teardownTrace).count Event.frameEv) fixedConfig :=
  clear_config_constant_per_frame envAllOk 2 0 _ ⟨0, 0, (0, 0, 0, 0)⟩ rfl

/-- C8: whenever GLFW initialized, the window-creation call requests width
800, height 600 and the fixed title string "RoadPorrada"; on the fully
successful path the viewport of the sole render target (view 0) is set to
the rectangle x = 0, y = 0, width = 800, height = 600 and the clear
configuration uses the fixed packed 32-bit RGBA constant `0x303030ff` with
flags in which both the color and the depth clear bits are set. -/
theorem window_and_view_constants (env : Env) (fuel : Nat) (code : Int)
    (tr : List Event) (h : runMain env fuel = some (code, tr))
    (hg : env.glfwInitOk = true) :
    Event.createWindowEv 800 600 "RoadPorrada" env.createWindowOk ∈ tr ∧
    (env.createWindowOk = true → env.bgfxInitOk = true →
      Event.setViewClearEv 0 (BGFX_CLEAR_COLOR ||| BGFX_CLEAR_DEPTH)
        0x303030ff 0 ∈ tr ∧
      Event.setViewRectEv 0 0 0 800 600 ∈ tr) ∧
    (BGFX_CLEAR_COLOR ||| BGFX_CLEAR_DEPTH) &&& BGFX_CLEAR_COLOR ≠ 0 ∧
    (BGFX_CLEAR_COLOR ||| BGFX_CLEAR_DEPTH) &&& BGFX_CLEAR_DEPTH ≠ 0 := by
  refine ⟨?_, ?_, by decide, by decide⟩
  · rcases runMain_eq_cases env fuel code tr h with
      ⟨hg', _, rfl⟩ | ⟨_, hw, _, rfl⟩ | ⟨_, hw, _, _, rfl⟩ |
      ⟨_, hw, _, _, evs, _, rfl⟩
    · rw [hg'] at hg
      exact absurd hg (by simp)
    · rw [hw]
      decide
    · rw [hw]
      decide
    · rw [hw]
      simp [preTrace]
  · intro hw' hb'
    rcases runMain_eq_cases env fuel code tr h with
      ⟨hg', _, rfl⟩ | ⟨_, hw, _, rfl⟩ | ⟨_, _, hb, _, rfl⟩ |
      ⟨_, _, _, _, evs, _, rfl⟩
    · rw [hg'] at hg
      exact absurd hg (by simp)
    · rw [hw'] at hw
      exact absurd hw (by simp)
    · rw [hb'] at hb
      exact absurd hb (by simp)
    · constructor <;> simp [preTrace]

/-- Witness for C8 at the concrete all-succeeding environment. -/
theorem window_and_view_constants_witness :
    Event.createWindowEv 800 600 "RoadPorrada" envAllOk.createWindowOk ∈
      preTrace ++ [Event.pollEventsEv, Event.touchEv 0, Event.frameEv,
        Event.getKeyEv GLFW_KEY_ESCAPE] ++ teardownTrace ∧
    (envAllOk.createWindowOk = true → envAllOk.bgfxInitOk = true →
      Event.setViewClearEv 0 (BGFX_CLEAR_COLOR ||| BGFX_CLEAR_DEPTH)
        0x303030ff 0 ∈
        preTrace ++ [Event.pollEventsEv, Event.touchEv 0, Event.frameEv,
          Event.getKeyEv GLFW_KEY_ESCAPE] ++ teardownTrace ∧
      Event.setViewRectEv 0 0 0 800 600 ∈
        preTrace ++ [Event.pollEventsEv, Event.touchEv 0, Event.frameEv,
          Event.getKeyEv GLFW_KEY_ESCAPE] ++ teardownTrace) ∧
    (BGFX_CLEAR_COLOR ||| BGFX_CLEAR_DEPTH) &&& BGFX_CLEAR_COLOR ≠ 0 ∧
    (BGFX_CLEAR_COLOR ||| BGFX_CLEAR_DEPTH) &&& BGFX_CLEAR_DEPTH ≠ 0 :=
  window_and_view_constants envAllOk 2 0 _ rfl rfl

/-- Two environments that agree on the three initialization outcomes, on
OS close requests, and on the state of the Escape key alone, drive the frame
loop identically. -/
theorem frameLoop_congr (e1 e2 : Env)
    (hos : ∀ n, e1.osClose n = e2.osClose n)
    (hkey : ∀ n, e1.keyState n GLFW_KEY_ESCAPE =
      e2.keyState n GLFW_KEY_ESCAPE) :
    ∀ fuel n sc, frameLoop e1 fuel n sc = frameLoop e2 fuel n sc := by
  intro fuel
  induction fuel with
  | zero => intro n sc; rfl
  | succ fuel ih =>
    intro n sc
    cases sc with
    | true => simp [frameLoop]
    | false =>
      have hbody : loopBody e1 n = loopBody e2 n := by
        unfold loopBody
        rw [hkey n, hos n]
      rw [frameLoop, frameLoop, hbody]
      simp only [ih]

/-- If the OS never requests a close and Escape is never pressed, the frame
loop never terminates, however much fuel it is given. -/
theorem frameLoop_no_close_none (env : Env)
    (hos : ∀ n, env.osClose n = false)
    (hkey : ∀ n, env.keyState n GLFW_KEY_ESCAPE ≠ GLFW_PRESS) :
    ∀ fuel n, frameLoop env fuel n false = none := by
  intro fuel
  induction fuel with
  | zero => intro n; rfl
  | succ fuel ih =>
    intro n
    rw [frameLoop]
    simp only [if_neg (by simp : ¬ (false = true)), loopBody_eq]
    have hclose : closeAfter env n = false := by
      unfold closeAfter
      rw [hos n, beq_eq_false_iff_ne.mpr (hkey n)]
      rfl
    rw [hclose, ih]
    rfl

/-- C10: despite the console prompt (part of the trace) saying to press any
key to exit, Escape is the only key the program inspects.  First, two
environments that differ arbitrarily in the state of every key other than
Escape produce identical runs.  Second, a non-Escape key press leaves the
close-requested flag exactly as event polling left it.  Third, if the OS
never requests a close and Escape is never pressed, the loop never
terminates — no other key can end it. -/
theorem only_escape_key_inspected :
    (∀ e1 e2 : Env, e1.glfwInitOk = e2.glfwInitOk →
      e1.createWindowOk = e2.createWindowOk →
      e1.bgfxInitOk = e2.bgfxInitOk →
      (∀ n, e1.osClose n = e2.osClose n) →
      (∀ n, e1.keyState n GLFW_KEY_ESCAPE =
        e2.keyState n GLFW_KEY_ESCAPE) →
      ∀ fuel, runMain e1 fuel = runMain e2 fuel) ∧
    (∀ (env : Env) (n : Nat),
      env.keyState n GLFW_KEY_ESCAPE ≠ GLFW_PRESS →
      (loopBody env n).1 = env.osClose n) ∧
    (∀ env : Env, (∀ n, env.osClose n = false) →
      (∀ n, env.keyState n GLFW_KEY_ESCAPE ≠ GLFW_PRESS) →
      ∀ fuel n, frameLoop env fuel n false = none) := by
  refine ⟨?_, ?_, fun env hos hkey => frameLoop_no_close_none env hos hkey⟩
  · intro e1 e2 h1 h2 h3 hos hkey fuel
    unfold runMain
    rw [h1, h2, h3, frameLoop_congr e1 e2 hos hkey fuel 0 false]
  · intro env n hne
    rw [loopBody_eq]
    unfold closeAfter
    rw [beq_eq_false_iff_ne.mpr hne]
    simp

/-- C10 witness environment: identical to `envAllOk` except that every key
other than Escape is pressed on every iteration. -/
def envOtherKeys : Env :=
  { envAllOk with
    keyState := fun _ k => if k == GLFW_KEY_ESCAPE then 0 else GLFW_PRESS }

/-- C10 witness environment: no OS close request and no key pressed,
ever. -/
def envNoInput : Env :=
  { envAllOk with osClose := fun _ => false }

/-- Witness for C10: pressing every non-Escape key changes nothing
observable, leaves the close flag down, and never ends the loop. -/
theorem only_escape_key_inspected_witness :
    runMain envOtherKeys 2 = runMain envAllOk 2 ∧
    (loopBody envNoInput 0).1 = envNoInput.osClose 0 ∧
    frameLoop envNoInput 3 0 false = none :=
  ⟨only_escape_key_inspected.1 envOtherKeys envAllOk rfl rfl rfl
      (fun _ => rfl) (fun _ => rfl) 2,
    only_escape_key_inspected.2.1 envNoInput 0 Nat.zero_ne_one,
    only_escape_key_inspected.2.2 envNoInput (fun _ => rfl)
      (fun _ => Nat.zero_ne_one) 3 0⟩

end Roadporrada
